import Mathlib

/-!
Verification of the submission validation and admission-control core of the
travel backend (Cloud Functions in `src/functions/index.js` plus the schema
module in `src/unnamed/part_000`, the file exporting
`validateTripSubmissionData` and `validateRecommendationData`).

The JavaScript is shallowly embedded: JSON-like payloads become the `Value`
inductive, in-place mutation of the validated envelope is made explicit by
returning the post-call envelope, timestamps are epoch milliseconds as `Int`,
and fallible steps return `Option`.
-/

set_option maxRecDepth 4000

namespace Wander

/-- JSON-like value space of the submission payloads. The numeric case is
restricted to integers: every numeric field the verified claims touch is
declared `type: integer` in the schema (group size, trip duration) or is a
calendar component. -/
inductive Value where
  | vNull : Value
  | vBool : Bool → Value
  | vInt : Int → Value
  | vStr : String → Value
  | vArr : List Value → Value
  | vObj : List (String × Value) → Value
deriving Repr

/-- Property lookup on an object field list; `none` models `undefined`. -/
def getField (fs : List (String × Value)) (k : String) : Option Value :=
  (fs.find? (fun p => p.1 == k)).map (fun p => p.2)

/-- `data.k` on an arbitrary value; property access on a non-object is
modelled as `undefined`. -/
def getProp (v : Value) (k : String) : Option Value :=
  match v with
  | .vObj fs => getField fs k
  | _ => none

/-- JavaScript truthiness of a defined value. -/
def jsTruthy : Value → Bool
  | .vNull => false
  | .vBool b => b
  | .vInt n => n != 0
  | .vStr s => s != ""
  | .vArr _ => true
  | .vObj _ => true

/-- Template-literal rendering of the value shapes that can appear as a
destination label. -/
def jsDisplay : Value → String
  | .vStr s => s
  | .vInt n => toString n
  | .vBool b => if b then "true" else "false"
  | .vNull => "null"
  | .vArr _ => ""
  | .vObj _ => ""

/-! Calendar arithmetic

Civil-calendar conversions on the proleptic Gregorian calendar, used to give
meaning to the instants the code constructs (epoch days / epoch
milliseconds). -/

def msPerHour : Int := 3600000

def msPerDay : Int := 86400000

/-- Epoch day number of a valid civil date (month in 1..12). -/
def daysFromCivil (y m d : Int) : Int :=
  let y2 := if m ≤ 2 then y - 1 else y
  let era := y2.fdiv 400
  let yoe := y2 - era * 400
  let mp := (m + 9).emod 12
  let doy := (153 * mp + 2).fdiv 5 + d - 1
  let doe := yoe * 365 + yoe.fdiv 4 - yoe.fdiv 100 + doy
  era * 146097 + doe - 719468

/-- Civil date (year, month, day) of an epoch day number. -/
def civilFromDays (z : Int) : Int × Int × Int :=
  let z2 := z + 719468
  let era := z2.fdiv 146097
  let doe := z2 - era * 146097
  let yoe := (doe - doe.fdiv 1460 + doe.fdiv 36524 - doe.fdiv 146096).fdiv 365
  let y := yoe + era * 400
  let doy := doe - (365 * yoe + yoe.fdiv 4 - yoe.fdiv 100)
  let mp := (5 * doy + 2).fdiv 153
  let d := doy - (153 * mp + 2).fdiv 5 + 1
  let m := if mp < 10 then mp + 3 else mp - 9
  (if m ≤ 2 then y + 1 else y, m, d)

/-- ECMAScript `MakeDay(year, monthIndex, day)` as used by
`Date.UTC(year, monthIndex, day)`: the month index and the day are arbitrary
integers and roll over into adjacent months and years. -/
def jsMakeDay (year monthIndex day : Int) : Int :=
  daysFromCivil (year + monthIndex.fdiv 12) (monthIndex.emod 12 + 1) 1 + (day - 1)

def isLeapYear (y : Int) : Bool :=
  (y.emod 4 == 0 && y.emod 100 != 0) || y.emod 400 == 0

def daysInMonth (y m : Int) : Int :=
  if m == 2 then (if isLeapYear y then 29 else 28)
  else if m == 4 || m == 6 || m == 9 || m == 11 then 30
  else 31

/-- Whether (y, m, d) denotes a real calendar date. -/
def isValidCivil (y m d : Int) : Bool :=
  1 ≤ m && m ≤ 12 && 1 ≤ d && d ≤ daysInMonth y m

/-! Date strings and parsing -/

/-- The schema pattern of the calendar-date fields. -/
def datePatternString : String := "^\\d{4}-\\d{2}-\\d{2}$"

/-- Whether a string matches the regular expression of four digits, a dash,
two digits, a dash, two digits, exactly. -/
def matchesDatePattern (s : String) : Bool :=
  match s.data with
  | [y1, y2, y3, y4, h1, m1, m2, h2, d1, d2] =>
      y1.isDigit && y2.isDigit && y3.isDigit && y4.isDigit &&
      h1 == '-' && m1.isDigit && m2.isDigit && h2 == '-' &&
      d1.isDigit && d2.isDigit
  | _ => false

def digitVal (c : Char) : Int := Int.ofNat (c.toNat - '0'.toNat)

/-- The three integer components of a pattern-matching date string, as
produced by split on the dash and numeric conversion in `index.js`. -/
def dateComponents (s : String) : Int × Int × Int :=
  match s.data with
  | [y1, y2, y3, y4, _, m1, m2, _, d1, d2] =>
      (1000 * digitVal y1 + 100 * digitVal y2 + 10 * digitVal y3 + digitVal y4,
       10 * digitVal m1 + digitVal m2,
       10 * digitVal d1 + digitVal d2)
  | _ => (0, 0, 0)

/-- `Date.UTC(year, month - 1, day, 12, 0, 0)` from `index.js` lines 153 and
162: the instant (epoch ms) at noon UTC of the possibly rolled-over date. -/
def noonUtcInstant (year month day : Int) : Int :=
  jsMakeDay year (month - 1) day * msPerDay + 12 * msPerHour

/-- `new Date(s)` for a date-only string: a string in the ECMAScript date
format denoting a real calendar date parses to UTC midnight of that day;
a pattern-matching string that is no real date is an invalid date (`none`).
Strings in other formats go down the best-effort legacy path, which the spec
documents as unspecified; the claims never exercise it and it is modelled as
an invalid date. -/
def jsDateParse (s : String) : Option Int :=
  if matchesDatePattern s then
    let c := dateComponents s
    if isValidCivil c.1 c.2.1 c.2.2 then some (daysFromCivil c.1 c.2.1 c.2.2 * msPerDay)
    else none
  else none

/-- `new Date(v)` on a defined value: strings parse as dates, numbers are
epoch milliseconds, other shapes are modelled as invalid dates. -/
def jsNewDate : Value → Option Int
  | .vStr s => jsDateParse s
  | .vInt n => some n
  | _ => none

/-- The date-normalization step of `submitTrip` (`index.js` lines 148-166)
applied to one submitted date value. A pattern-matching string is parsed
componentwise and anchored at noon UTC; everything else falls back to
`new Date`; a falsy value or an invalid fallback date yields `none`, which
the handler turns into the 400 date error (lines 169-180). -/
def parseSubmittedDate (v : Option Value) : Option Int :=
  match v with
  | some (.vStr s) =>
      if matchesDatePattern s then
        let c := dateComponents s
        some (noonUtcInstant c.1 c.2.1 c.2.2)
      else if s != "" then jsDateParse s else none
  | some v => if jsTruthy v then jsNewDate v else none
  | none => none

/-- The combined date step of `submitTrip` (`index.js` lines 147-181): parse
both submitted dates, fail when either is absent, falsy or unparseable, and
fail unless the end instant is strictly after the start instant; `none` is
the thrown error that becomes the 400 date response. -/
def submitTripDates (startRaw endRaw : Option Value) : Option (Int × Int) :=
  match parseSubmittedDate startRaw, parseSubmittedDate endRaw with
  | some s, some e => if e ≤ s then none else some (s, e)
  | _, _ => none

/-- Rendering an instant back to the calendar day seen in a timezone of the
given fixed offset (milliseconds east of UTC). -/
def calendarDayAt (t offset : Int) : Int × Int × Int :=
  civilFromDays ((t + offset).fdiv msPerDay)

/-! String sanitization (`index.js` lines 14-18) -/

/-- The code points trimmed by `String.prototype.trim`. -/
def isJsSpace (c : Char) : Bool :=
  c == ' ' || c == '\t' || c == '\n' || c == '\r' ||
  c.toNat == 0xb || c.toNat == 0xc || c.toNat == 0xa0 ||
  c.toNat == 0xfeff || c.toNat == 0x2028 || c.toNat == 0x2029

/-- The five characters removed by the sanitizer: angle brackets, double
quote, apostrophe (code 39), ampersand. -/
def isBannedChar (c : Char) : Bool :=
  c == '<' || c == '>' || c == '\"' || c.toNat == 39 || c == '&'

/-- `trim()` on the character list of a string. -/
def jsTrimChars (l : List Char) : List Char :=
  ((l.dropWhile isJsSpace).reverse.dropWhile isJsSpace).reverse

/-- Trim, then delete every occurrence of the five banned characters, in the
order the source composes them. -/
def sanitizeChars (l : List Char) : List Char :=
  (jsTrimChars l).filter (fun c => !(isBannedChar c))

/-- `sanitizeString` from `index.js` lines 15-18: a non-string input is
returned unchanged; a string is trimmed and stripped of the banned
characters. -/
def sanitizeString (v : Value) : Value :=
  match v with
  | .vStr s => .vStr (List.asString (sanitizeChars s.data))
  | v => v

/-! Rate limiter (`index.js` lines 126-144 and 223-231) -/

/-- The per-identity document in the `userSubmissions` collection. Both
fields may be absent in a stored document; the code reads them with
optional chaining and `|| 0`. -/
structure RateLimitRecord where
  lastSubmissionDate : Option Int
  submissionCount : Option Int
deriving Repr, DecidableEq

/-- Calendar day number of an instant in the server reference calendar,
as compared by `toDateString()`. -/
def dayOf (t : Int) : Int := t.fdiv msPerDay

/-- `today` of `index.js` lines 126-127: the current time with the
time-of-day cleared, i.e. midnight of the current calendar day. -/
def truncateToDay (t : Int) : Int := dayOf t * msPerDay

/-- The admission decision of `index.js` lines 132-144: reject exactly when
a stored record exists whose `lastSubmissionDate` falls on the current
calendar day and whose `submissionCount` has already reached 10. -/
def rateLimitAdmit (stored : Option RateLimitRecord) (now : Int) : Bool :=
  match stored with
  | none => true
  | some r =>
      match r.lastSubmissionDate with
      | none => true
      | some last => !(dayOf last == dayOf now && r.submissionCount.getD 0 ≥ 10)

/-- The next counter value of `index.js` lines 223-226: previous count plus
one when the stored date is on the current calendar day, otherwise 1. -/
def newSubmissionCount (stored : Option RateLimitRecord) (now : Int) : Int :=
  match stored with
  | none => 1
  | some r =>
      match r.lastSubmissionDate with
      | none => 1
      | some last => if dayOf last == dayOf now then r.submissionCount.getD 0 + 1 else 1

/-- The write-back of `index.js` lines 228-231. `lastSubmissionDate` is set
to `FieldValue.serverTimestamp()`, the instant at which the store commits
the write. -/
def rateLimitWriteBack (writeTime : Int) (newCount : Int) : RateLimitRecord :=
  { lastSubmissionDate := some writeTime, submissionCount := some newCount }

/-! Schema validation (`src/unnamed/part_000`)

The ajv instance of lines 21-27 runs with `allErrors` (collect every
violation), `useDefaults` (schema defaults are written into the data),
`removeAdditional: true` (a no-op for these schemas: the trip schema sets
`additionalProperties: true` and the recommendation schema leaves it unset)
and `coerceTypes: false`. -/

/-- One error produced by the compiled ajv validator: the instance path of
the offending value (empty at the document root) and, for a missing required
property, its name. -/
structure AjvError where
  instancePath : String
  missingProperty : Option String
  message : String
deriving Repr, DecidableEq

/-- The error shape `validateTripSubmissionData` and
`validateRecommendationData` hand back to their callers. -/
structure FieldError where
  field : String
  message : String
deriving Repr, DecidableEq

/-- The `{ valid, errors }` result object of the two exported validators;
the `{ valid: true }` case is represented with an empty error list. -/
structure ValidationResult where
  valid : Bool
  errors : List FieldError
deriving Repr, DecidableEq

/-- String-typed property: type, minLength, maxLength checks. A bound the
schema does not declare is passed as 0 (minLength) so the branch is inert. -/
def checkStringProp (path : String) (minLen maxLen : Nat) (v : Value) : List AjvError :=
  match v with
  | .vStr s =>
      (if s.length < minLen then
        [⟨path, none, "must NOT have fewer than " ++ toString minLen ++ " characters"⟩]
      else []) ++
      (if s.length > maxLen then
        [⟨path, none, "must NOT have more than " ++ toString maxLen ++ " characters"⟩]
      else [])
  | _ => [⟨path, none, "must be string"⟩]

/-- Integer-typed property with inclusive minimum and maximum. -/
def checkIntProp (path : String) (lo hi : Int) (v : Value) : List AjvError :=
  match v with
  | .vInt n =>
      (if n < lo then [⟨path, none, "must be >= " ++ toString lo⟩] else []) ++
      (if n > hi then [⟨path, none, "must be <= " ++ toString hi⟩] else [])
  | _ => [⟨path, none, "must be integer"⟩]

/-- String property constrained by the date pattern. -/
def checkDatePatternProp (path : String) (v : Value) : List AjvError :=
  match v with
  | .vStr s =>
      if matchesDatePattern s then []
      else [⟨path, none, "must match pattern \"" ++ datePatternString ++ "\""⟩]
  | _ => [⟨path, none, "must be string"⟩]

/-- Boolean-typed property. -/
def checkBooleanProp (path : String) (v : Value) : List AjvError :=
  match v with
  | .vBool _ => []
  | _ => [⟨path, none, "must be boolean"⟩]

/-- String property constrained to an enumerated vocabulary. -/
def checkEnumProp (path : String) (vocab : List String) (v : Value) : List AjvError :=
  match v with
  | .vStr s =>
      if vocab.contains s then []
      else [⟨path, none, "must be equal to one of the allowed values"⟩]
  | _ => [⟨path, none, "must be string"⟩]

/-- Modelled from the spec: the shared travel-style vocabulary
(`travel-style.schema.json` of the `@wandermint/shared-schemas` package,
which is not part of this repository). The spec (section 8 scenario) and the
repository test suite fix only that "Comfortable" is a member; the
vocabulary is modelled as its witnessed members. -/
def travelStyleVocabulary : List String := ["Comfortable"]

/-- Modelled from the spec: the shared budget-level vocabulary
(`budget.schema.json` of the `@wandermint/shared-schemas` package, which is
not part of this repository). The repository test suite fixes that
"Comfortable" and "Luxury" are members and "Super Cheap" is not; the
vocabulary is modelled as its witnessed members. -/
def budgetVocabulary : List String := ["Comfortable", "Luxury"]

/-- The `flightClass` enumeration of the trip schema. -/
def flightClassVocabulary : List String :=
  ["Economy", "Premium Economy", "Business", "First Class"]

/-- `destinations` property: array of 1 to 5 strings of 1 to 100
characters. -/
def checkDestinationsProp (v : Value) : List AjvError :=
  match v with
  | .vArr xs =>
      (if xs.length < 1 then [⟨"/destinations", none, "must NOT have fewer than 1 items"⟩]
       else []) ++
      (if xs.length > 5 then [⟨"/destinations", none, "must NOT have more than 5 items"⟩]
       else []) ++
      xs.enum.flatMap (fun p => checkStringProp ("/destinations/" ++ toString p.1) 1 100 p.2)
  | _ => [⟨"/destinations", none, "must be array"⟩]

/-- `interests` property: array of at most 20 strings of at most 50
characters. -/
def checkInterestsProp (v : Value) : List AjvError :=
  match v with
  | .vArr xs =>
      (if xs.length > 20 then [⟨"/interests", none, "must NOT have more than 20 items"⟩]
       else []) ++
      xs.enum.flatMap (fun p => checkStringProp ("/interests/" ++ toString p.1) 0 50 p.2)
  | _ => [⟨"/interests", none, "must be array"⟩]

/-- The `required` list of the trip submission schema, in declaration
order. -/
def tripRequiredList : List String :=
  ["destinations", "startDate", "endDate", "travelStyle", "groupSize"]

/-- One "must have required property" error per missing required field. -/
def requiredErrors (fs : List (String × Value)) : List AjvError :=
  tripRequiredList.flatMap (fun k =>
    if (getField fs k).isSome then []
    else [⟨"", some k, "must have required property \x27" ++ k ++ "\x27"⟩])

/-- Run a property check when the property is present; an absent optional
property produces no errors. -/
def checkOpt (fs : List (String × Value)) (k : String) (f : Value → List AjvError) :
    List AjvError :=
  match getField fs k with
  | some v => f v
  | none => []

/-- The compiled trip submission schema (`part_000` lines 41-133) under the
ajv options of lines 21-27. Returns the collected errors together with the
post-call data: `useDefaults` inserts `flexibleDates: false` into an object
that lacks the key (the only default the schema declares), and
`removeAdditional` removes nothing because the schema sets
`additionalProperties: true`. -/
def validateTripSubmission (data : Value) : List AjvError × Value :=
  match data with
  | .vObj fs =>
      let errs :=
        requiredErrors fs ++
        checkOpt fs "destinations" checkDestinationsProp ++
        checkOpt fs "startDate" (checkDatePatternProp "/startDate") ++
        checkOpt fs "endDate" (checkDatePatternProp "/endDate") ++
        checkOpt fs "travelStyle" (checkEnumProp "/travelStyle" travelStyleVocabulary) ++
        checkOpt fs "groupSize" (checkIntProp "/groupSize" 1 20) ++
        checkOpt fs "departureLocation" (checkStringProp "/departureLocation" 1 100) ++
        checkOpt fs "flexibleDates" (checkBooleanProp "/flexibleDates") ++
        checkOpt fs "tripDuration" (checkIntProp "/tripDuration" 1 90) ++
        checkOpt fs "budget" (checkEnumProp "/budget" budgetVocabulary) ++
        checkOpt fs "specialRequests" (checkStringProp "/specialRequests" 0 1000) ++
        checkOpt fs "interests" checkInterestsProp ++
        checkOpt fs "flightClass" (checkEnumProp "/flightClass" flightClassVocabulary) ++
        checkOpt fs "destination" (checkStringProp "/destination" 0 100) ++
        checkOpt fs "paymentMethod" (checkStringProp "/paymentMethod" 0 50)
      let fs2 :=
        if (getField fs "flexibleDates").isSome then fs
        else fs ++ [("flexibleDates", Value.vBool false)]
      (errs, .vObj fs2)
  | _ => ([⟨"", none, "must be object"⟩], data)

/-- `validateDateRange` (`part_000` lines 407-423): when both date fields
are present and truthy, parse them with `new Date` and reject when the end
is not strictly after the start. A JavaScript comparison against an invalid
date (NaN) is false, so an unparseable side passes the check. -/
def validateDateRange (data : Value) : ValidationResult :=
  if ((getProp data "startDate").map jsTruthy).getD false &&
     ((getProp data "endDate").map jsTruthy).getD false then
    match (getProp data "startDate").bind jsNewDate,
          (getProp data "endDate").bind jsNewDate with
    | some s, some e =>
        if e ≤ s then ⟨false, [⟨"endDate", "End date must be after start date"⟩]⟩
        else ⟨true, []⟩
    | _, _ => ⟨true, []⟩
  else ⟨true, []⟩

/-- The error mapping of `part_000` lines 466-470 / 494-498:
`err.instancePath || err.params.missingProperty`. -/
def mapAjvError (e : AjvError) : FieldError :=
  { field := if e.instancePath == "" then e.missingProperty.getD "" else e.instancePath,
    message := e.message }

/-- `validateTripSubmissionData` (`part_000` lines 460-481), paired with the
post-call state of the envelope (ajv mutates its argument in place when it
applies defaults, and `validateDateRange` then reads that same object). -/
def validateTripSubmissionData (data : Value) : ValidationResult × Value :=
  let r := validateTripSubmission data
  if r.1.isEmpty then (validateDateRange r.2, r.2)
  else (⟨false, r.1.map mapAjvError⟩, r.2)

/-- Whether one destination of a recommendation violates the nested
date-range rule (`part_000` lines 434-444): both date fields present and
truthy, both parse to real dates, and the departure is not strictly after
the arrival. -/
def destDatesViolation (dest : Value) : Bool :=
  match getProp dest "arrivalDate", getProp dest "departureDate" with
  | some a, some d =>
      jsTruthy a && jsTruthy d &&
      (match jsNewDate a, jsNewDate d with
       | some ta, some td => td ≤ ta
       | _, _ => false)
  | _, _ => false

/-- The label of a violating destination in its error message: its
`cityName` when truthy, its one-based position otherwise. -/
def destLabel (i : Nat) (dest : Value) : String :=
  match getProp dest "cityName" with
  | some v => if jsTruthy v then jsDisplay v else toString (i + 1)
  | none => toString (i + 1)

/-- The error pushed for a violating destination (`part_000` lines
439-442). -/
def mkDestDateError (i : Nat) (dest : Value) : FieldError :=
  { field := "destinations[" ++ toString i ++ "].departureDate",
    message := "Destination " ++ destLabel i dest ++
      ": Departure date must be after arrival date" }

/-- `validateDestinationDates` (`part_000` lines 429-449): walk the
`destinations` array in order and collect one error per violating
destination. -/
def validateDestinationDates (recommendation : Value) : ValidationResult :=
  let errors :=
    match getProp recommendation "destinations" with
    | some (.vArr dests) =>
        dests.enum.flatMap
          (fun p => if destDatesViolation p.2 then [mkDestDateError p.1 p.2] else [])
    | _ => []
  if errors.isEmpty then ⟨true, []⟩ else ⟨false, errors⟩

/-! Field extraction and assembly in `submitTrip` (`index.js` 93-123, 184-206) -/

/-- `parseInt` on the value shapes that can reach the group-size clamp:
integers pass through, strings parse their leading optional-sign digit run,
anything else is NaN (`none`). -/
def jsParseInt (v : Value) : Option Int :=
  match v with
  | .vInt n => some n
  | .vStr s =>
      let l := s.data.dropWhile isJsSpace
      let signAndRest : Int × List Char :=
        match l with
        | '-' :: r => (-1, r)
        | '+' :: r => (1, r)
        | r => (1, r)
      let ds := signAndRest.2.takeWhile Char.isDigit
      if ds.isEmpty then none
      else some (signAndRest.1 *
        Int.ofNat (ds.foldl (fun a c => 10 * a + (c.toNat - '0'.toNat)) 0))
  | _ => none

/-- The group-size clamp of `index.js` line 121:
`Math.max(1, Math.min(20, parseInt(data.groupSize) || 1))`. A parse result
of 0 and a NaN both fall to 1 through `|| 1`. -/
def clampGroupSize (v : Value) : Int :=
  let orOne : Int :=
    match jsParseInt v with
    | some n => if n == 0 then 1 else n
    | none => 1
  max 1 (min 20 orOne)

/-- `x || y` on optional values, with `undefined` as `none`. -/
def jsOrV (a b : Option Value) : Option Value :=
  match a with
  | some v => if jsTruthy v then some v else b
  | none => b

/-- `data.destinations && data.destinations[0]`: an array is always truthy
and indexing an empty one gives `undefined`. The schema has already forced
`destinations`, when present, to be an array. -/
def firstDestination (data : Value) : Option Value :=
  match getProp data "destinations" with
  | some (.vArr xs) => xs.head?
  | _ => none

/-- `index.js` line 94: the legacy single `destination` field. -/
def assembledDestination (data : Value) : Option Value :=
  (jsOrV (getProp data "destination") (firstDestination data)).map sanitizeString

/-- `index.js` line 95: sanitize every entry of `destinations` and drop the
falsy results; fall back to a singleton built from the legacy field. The
schema has already forced `destinations`, when present, to be an array. -/
def assembledDestinations (data : Value) : List Value :=
  match getProp data "destinations" with
  | some (.vArr xs) => (xs.map sanitizeString).filter jsTruthy
  | _ =>
      match getProp data "destination" with
      | some v => if jsTruthy v then [sanitizeString v] else []
      | none => []

/-- `index.js` line 96: `sanitizeString(data.departureLocation)` with fallback null. -/
def assembledDepartureLocation (data : Value) : Value :=
  match (getProp data "departureLocation").map sanitizeString with
  | some v => if jsTruthy v then v else .vNull
  | none => .vNull

/-- `index.js` line 119: `sanitizeString(data.budget)` with fallback null. -/
def assembledBudget (data : Value) : Value :=
  match (getProp data "budget").map sanitizeString with
  | some v => if jsTruthy v then v else .vNull
  | none => .vNull

/-- `index.js` line 120: `sanitizeString(data.travelStyle)` with fallback "Comfortable". -/
def assembledTravelStyle (data : Value) : Value :=
  match (getProp data "travelStyle").map sanitizeString with
  | some v => if jsTruthy v then v else .vStr "Comfortable"
  | none => .vStr "Comfortable"

/-- `index.js` line 121 applied to the submitted field. -/
def assembledGroupSize (data : Value) : Int :=
  clampGroupSize ((getProp data "groupSize").getD .vNull)

/-- `index.js` line 122: `sanitizeString(data.specialRequests)` with fallback empty string. -/
def assembledSpecialRequests (data : Value) : Value :=
  match (getProp data "specialRequests").map sanitizeString with
  | some v => if jsTruthy v then v else .vStr ""
  | none => .vStr ""

/-- `index.js` line 123: sanitize every interest and drop the falsy
results. The schema has already forced `interests`, when present, to be an
array. -/
def assembledInterests (data : Value) : List Value :=
  match getProp data "interests" with
  | some (.vArr xs) => (xs.map sanitizeString).filter jsTruthy
  | _ => []

/-! Specification-side definitions and concrete probe payloads -/

/-- The one mutation the ajv options allow on a trip submission envelope:
when the envelope is an object without a `flexibleDates` key, the schema
default `false` is inserted; every other envelope is left as it is. -/
def applyFlexibleDatesDefault (data : Value) : Value :=
  match data with
  | .vObj fs =>
      if (getField fs "flexibleDates").isSome then .vObj fs
      else .vObj (fs ++ [("flexibleDates", Value.vBool false)])
  | v => v

/-- The positions of the destinations of a recommendation that violate the
nested date-range rule. -/
def violatingIndices (dests : List Value) : List Nat :=
  (List.range dests.length).filter (fun i => destDatesViolation (dests.getD i .vNull))

/-- A structurally valid trip submission carrying the given group size,
used to probe the group-size handling. -/
def groupSizePayload (g : Int) : Value := .vObj
  [("destinations", .vArr [.vStr "Paris"]),
   ("startDate", .vStr "2024-06-15"),
   ("endDate", .vStr "2024-06-22"),
   ("travelStyle", .vStr "Comfortable"),
   ("groupSize", .vInt g)]

/-- A valid trip submission that explicitly carries `flexibleDates`. -/
def tripPayloadFlex : Value := .vObj
  [("destinations", .vArr [.vStr "Paris"]),
   ("startDate", .vStr "2024-06-15"),
   ("endDate", .vStr "2024-06-22"),
   ("flexibleDates", .vBool false),
   ("travelStyle", .vStr "Comfortable"),
   ("groupSize", .vInt 2)]

/-- A trip submission whose end date equals its start date. -/
def equalDatesPayload : Value := .vObj
  [("destinations", .vArr [.vStr "Paris"]),
   ("startDate", .vStr "2024-06-15"),
   ("endDate", .vStr "2024-06-15"),
   ("travelStyle", .vStr "Comfortable"),
   ("groupSize", .vInt 2)]

/-- A recommendation payload with three destinations: the first has equal
arrival and departure dates, the second is in order, the third has its
departure before its arrival and carries no city name. -/
def recPayloadDests : List Value :=
  [.vObj [("cityName", .vStr "Paris"), ("arrivalDate", .vStr "2024-06-15"),
          ("departureDate", .vStr "2024-06-15")],
   .vObj [("cityName", .vStr "Lyon"), ("arrivalDate", .vStr "2024-06-16"),
          ("departureDate", .vStr "2024-06-18")],
   .vObj [("arrivalDate", .vStr "2024-06-20"), ("departureDate", .vStr "2024-06-19")]]

/-- The recommendation payload wrapping `recPayloadDests`. -/
def recPayload : Value := .vObj [("destinations", .vArr recPayloadDests)]

/-- An otherwise valid trip submission with an empty destinations array. -/
def emptyDestinationsPayload : List (String × Value) :=
  [("destinations", .vArr []),
   ("startDate", .vStr "2024-06-15"),
   ("endDate", .vStr "2024-06-22"),
   ("travelStyle", .vStr "Comfortable"),
   ("groupSize", .vInt 2)]

/-- An otherwise valid trip submission with six destinations. -/
def sixDestinationsPayload : List (String × Value) :=
  [("destinations", .vArr [.vStr "Paris", .vStr "Lyon", .vStr "Nice",
      .vStr "Marseille", .vStr "Bordeaux", .vStr "Toulouse"]),
   ("startDate", .vStr "2024-06-15"),
   ("endDate", .vStr "2024-06-22"),
   ("travelStyle", .vStr "Comfortable"),
   ("groupSize", .vInt 2)]

/-! Theorems -/

/-- Helper: the result component of `validateTripSubmissionData` as a
single conditional on the collected schema errors. -/
theorem validateTripSubmissionData_fst (data : Value) :
    (validateTripSubmissionData data).1 =
      if (validateTripSubmission data).1.isEmpty then
        validateDateRange (validateTripSubmission data).2
      else ⟨false, (validateTripSubmission data).1.map mapAjvError⟩ := by
  show (if (validateTripSubmission data).1.isEmpty then
      (validateDateRange (validateTripSubmission data).2, (validateTripSubmission data).2)
    else
      (⟨false, (validateTripSubmission data).1.map mapAjvError⟩,
        (validateTripSubmission data).2)).1 = _
  split <;> rfl

/-- Helper: the schema errors of `groupSizePayload g` are exactly the
out-of-range errors of the group-size bounds. -/
theorem groupSizePayload_errors (g : Int) :
    (validateTripSubmission (groupSizePayload g)).1 =
      (if g < 1 then [⟨"/groupSize", none, "must be >= 1"⟩] else []) ++
      (if g > 20 then [⟨"/groupSize", none, "must be <= 20"⟩] else []) := by
  have h1 : matchesDatePattern "2024-06-15" = true := by decide
  have h2 : matchesDatePattern "2024-06-22" = true := by decide
  have h3 : "Paris".length = 5 := rfl
  have hm1 : "must be >= " ++ toString (1:Int) = "must be >= 1" := rfl
  have hm2 : "must be <= " ++ toString (20:Int) = "must be <= 20" := rfl
  simp [validateTripSubmission, groupSizePayload, requiredErrors, tripRequiredList,
    checkOpt, getField, checkDestinationsProp, checkDatePatternProp, checkEnumProp,
    checkStringProp, checkIntProp, travelStyleVocabulary, List.find?, h1, h2, h3,
    hm1, hm2]

/-- C1. Rate limiting lifecycle: an identity with no stored record is
admitted and its counter becomes 1; with a stored record dated the current
calendar day, admission holds exactly when the stored count is below 10 and
the next count is the old count plus one; with a stored record dated a
different day, the submission is admitted regardless of the stored count
and the counter resets to 1. -/
theorem c1_rate_limiting_lifecycle (now : Int) :
    (rateLimitAdmit none now = true ∧ newSubmissionCount none now = 1) ∧
    (∀ last count : Int, dayOf last = dayOf now →
      (rateLimitAdmit (some ⟨some last, some count⟩) now = true ↔ count < 10) ∧
      newSubmissionCount (some ⟨some last, some count⟩) now = count + 1) ∧
    (∀ last count : Int, dayOf last ≠ dayOf now →
      rateLimitAdmit (some ⟨some last, some count⟩) now = true ∧
      newSubmissionCount (some ⟨some last, some count⟩) now = 1) := by
  refine ⟨⟨rfl, rfl⟩, ?_, ?_⟩
  · intro last count h
    constructor
    · simp [rateLimitAdmit, h]
    · simp [newSubmissionCount, h]
  · intro last count h
    constructor
    · simp [rateLimitAdmit, h]
    · simp [newSubmissionCount, h]

/-- Witness for C1 at concrete instants: day 0 record probed on day 0 with
counts 9 and 10, and on day 10 with count 10. -/
theorem c1_rate_limiting_lifecycle_witness :
    (rateLimitAdmit (some ⟨some 43200000, some 9⟩) 50000000 = true ↔ (9:Int) < 10) ∧
    ((rateLimitAdmit (some ⟨some 43200000, some 10⟩) 50000000 = true ↔ (10:Int) < 10) ∧
      newSubmissionCount (some ⟨some 43200000, some 10⟩) 50000000 = 10 + 1) ∧
    (rateLimitAdmit (some ⟨some 43200000, some 10⟩) 900000000 = true ∧
      newSubmissionCount (some ⟨some 43200000, some 10⟩) 900000000 = 1) :=
  ⟨((c1_rate_limiting_lifecycle 50000000).2.1 43200000 9 (by decide)).1,
   (c1_rate_limiting_lifecycle 50000000).2.1 43200000 10 (by decide),
   (c1_rate_limiting_lifecycle 900000000).2.2 43200000 10 (by decide)⟩

/-- C2, counterexample. The string "2024-13-01" matches the date pattern,
denotes no real calendar date, and the date-parsing step of `submitTrip`
does not reject it: it produces the noon-UTC instant of 2025-01-01, an
instant on another calendar day, contradicting the claim that such strings
yield a date error. -/
theorem c2_invalid_date_counterexample :
    matchesDatePattern "2024-13-01" = true ∧
    isValidCivil 2024 13 1 = false ∧
    parseSubmittedDate (some (.vStr "2024-13-01")) ≠ none ∧
    parseSubmittedDate (some (.vStr "2024-13-01")) = some 1735732800000 ∧
    calendarDayAt 1735732800000 0 = (2025, 1, 1) := by
  refine ⟨rfl, rfl, ?_, by decide, by decide⟩
  intro h
  exact Option.noConfusion ((by decide :
    parseSubmittedDate (some (.vStr "2024-13-01")) = some 1735732800000).symm.trans h)

/-- C2, amended. A date string matching the YYYY-MM-DD pattern is never
rejected by the parsing step: its integer components are handed to the
rollover calendar constructor and the result is the noon-UTC instant of the
rolled-over date, even when the components denote no real calendar date. -/
theorem c2_pattern_dates_never_rejected (s : String)
    (h : matchesDatePattern s = true) :
    parseSubmittedDate (some (.vStr s)) =
      some (noonUtcInstant (dateComponents s).1 (dateComponents s).2.1
        (dateComponents s).2.2) := by
  simp [parseSubmittedDate, h]

/-- Witness for C2 amended at the invalid calendar date "2024-13-01". -/
theorem c2_pattern_dates_never_rejected_witness :
    parseSubmittedDate (some (.vStr "2024-13-01")) =
      some (noonUtcInstant (dateComponents "2024-13-01").1
        (dateComponents "2024-13-01").2.1 (dateComponents "2024-13-01").2.2) :=
  c2_pattern_dates_never_rejected "2024-13-01" (by decide)

/-- C6, counterexample. The record written back after an admission stores
`FieldValue.serverTimestamp()`, the raw commit instant, in
`lastSubmissionDate` - not the current time truncated to the calendar day:
at the noon instant of 2024-06-15, the stored record differs from the
record the claim describes. -/
theorem c6_writeback_counterexample :
    truncateToDay 1718452800000 = 1718409600000 ∧
    rateLimitWriteBack 1718452800000 3 ≠
      { lastSubmissionDate := some (truncateToDay 1718452800000),
        submissionCount := some 3 } ∧
    (rateLimitWriteBack 1718452800000 3).lastSubmissionDate = some 1718452800000 := by
  exact ⟨by decide, by decide, rfl⟩

/-- C6, amended. The stored record is
`{lastSubmissionDate: write-time instant, submissionCount: newCount}`: the
count is exactly the count computed in the admission step, and the stored
date is the raw commit instant, whose calendar day is the current day; a
later check on the same calendar day therefore sees a same-day record and
admits exactly below the ceiling. -/
theorem c6_writeback_amended (writeTime count t2 : Int)
    (h : dayOf t2 = dayOf writeTime) :
    (rateLimitWriteBack writeTime count).submissionCount = some count ∧
    (rateLimitWriteBack writeTime count).lastSubmissionDate.map dayOf =
      some (dayOf writeTime) ∧
    (rateLimitAdmit (some (rateLimitWriteBack writeTime count)) t2 = true ↔
      count < 10) ∧
    newSubmissionCount (some (rateLimitWriteBack writeTime count)) t2 = count + 1 := by
  refine ⟨rfl, rfl, ?_, ?_⟩
  · simp [rateLimitAdmit, rateLimitWriteBack, h]
  · simp [newSubmissionCount, rateLimitWriteBack, h]

/-- Witness for C6 amended: a write at the noon instant of 2024-06-15
checked later the same day. -/
theorem c6_writeback_amended_witness :
    (rateLimitWriteBack 1718452800000 4).submissionCount = some 4 ∧
    (rateLimitWriteBack 1718452800000 4).lastSubmissionDate.map dayOf =
      some (dayOf 1718452800000) ∧
    (rateLimitAdmit (some (rateLimitWriteBack 1718452800000 4)) 1718460000000 = true ↔
      (4:Int) < 10) ∧
    newSubmissionCount (some (rateLimitWriteBack 1718452800000 4)) 1718460000000 =
      4 + 1 :=
  c6_writeback_amended 1718452800000 4 1718460000000 (by decide)

/-- C5, counterexample. The round trip is claimed for every timezone offset
within plus or minus 14 hours, but rendering the noon-UTC instant of
"2024-06-15" at offset +13 hours yields 2024-06-16 and at offset -13 hours
yields 2024-06-14. -/
theorem c5_roundtrip_counterexample :
    parseSubmittedDate (some (.vStr "2024-06-15")) = some 1718452800000 ∧
    calendarDayAt 1718452800000 (13 * msPerHour) = (2024, 6, 16) ∧
    calendarDayAt 1718452800000 (-(13 * msPerHour)) = (2024, 6, 14) := by
  exact ⟨by decide, by decide, by decide⟩

/-- C5, amended. Normalizing "2024-06-15" yields the noon-UTC instant of
that day, and rendering it back to a calendar day in any timezone offset
with -12h <= offset < +12h yields 2024-06-15 again; offsets of +12 hours
and beyond (up to the +14 claimed) land on the next day, offsets below -12
on the previous day. -/
theorem c5_roundtrip_amended (o : Int) (h1 : -(12 * msPerHour) ≤ o)
    (h2 : o < 12 * msPerHour) :
    parseSubmittedDate (some (.vStr "2024-06-15")) = some 1718452800000 ∧
    calendarDayAt 1718452800000 o = (2024, 6, 15) := by
  refine ⟨by decide, ?_⟩
  have hd : (1718452800000 + o).fdiv msPerDay = 19889 := by
    rw [show msPerDay = 86400000 from rfl,
      Int.fdiv_eq_ediv _ (by norm_num : (0:Int) ≤ 86400000)]
    simp only [msPerHour] at h1 h2
    omega
  show civilFromDays ((1718452800000 + o).fdiv msPerDay) = (2024, 6, 15)
  rw [hd]
  decide

/-- Witness for C5 amended at offset zero. -/
theorem c5_roundtrip_amended_witness :
    parseSubmittedDate (some (.vStr "2024-06-15")) = some 1718452800000 ∧
    calendarDayAt 1718452800000 0 = (2024, 6, 15) :=
  c5_roundtrip_amended 0 (by decide) (by decide)

/-- C4, counterexample. Validation does not leave the envelope unchanged: a
valid submission without a `flexibleDates` key comes back from
`validateTripSubmissionData` with `flexibleDates: false` inserted by the
`useDefaults` ajv option, so the post-call envelope differs from the
pre-call envelope. -/
theorem c4_validation_mutates_counterexample :
    getProp (groupSizePayload 2) "flexibleDates" = none ∧
    getProp ((validateTripSubmissionData (groupSizePayload 2)).2) "flexibleDates" =
      some (.vBool false) ∧
    (validateTripSubmissionData (groupSizePayload 2)).1.valid = true ∧
    (validateTripSubmissionData (groupSizePayload 2)).2 ≠ groupSizePayload 2 :=
  ⟨rfl, rfl, rfl, fun h =>
    absurd (congrArg (fun v => (getProp v "flexibleDates").isSome) h) (by decide)⟩

/-- C4, amended. The only change validation makes to the envelope is the
insertion of the schema default `flexibleDates: false` when that key is
absent: the post-call envelope is exactly the input with that default
applied, and an envelope already carrying the key comes back unchanged. The
cross-field evaluators themselves are pure. -/
theorem c4_envelope_after_validation (data : Value) :
    (validateTripSubmissionData data).2 = applyFlexibleDatesDefault data ∧
    ((getProp data "flexibleDates").isSome = true →
      (validateTripSubmissionData data).2 = data) := by
  have hout : (validateTripSubmissionData data).2 = (validateTripSubmission data).2 := by
    show (if (validateTripSubmission data).1.isEmpty then
        (validateDateRange (validateTripSubmission data).2, (validateTripSubmission data).2)
      else
        (⟨false, (validateTripSubmission data).1.map mapAjvError⟩,
          (validateTripSubmission data).2)).2 = (validateTripSubmission data).2
    split <;> rfl
  constructor
  · rw [hout]
    cases data with
    | vObj fs =>
        show Value.vObj (if (getField fs "flexibleDates").isSome then fs
            else fs ++ [("flexibleDates", Value.vBool false)]) =
          (if (getField fs "flexibleDates").isSome then Value.vObj fs
            else Value.vObj (fs ++ [("flexibleDates", Value.vBool false)]))
        split <;> rfl
    | vNull => rfl
    | vBool b => rfl
    | vInt n => rfl
    | vStr s => rfl
    | vArr xs => rfl
  · intro h
    rw [hout]
    cases data with
    | vObj fs =>
        show Value.vObj (if (getField fs "flexibleDates").isSome then fs
            else fs ++ [("flexibleDates", Value.vBool false)]) = Value.vObj fs
        rw [if_pos (show (getField fs "flexibleDates").isSome = true from h)]
    | vNull => exact Bool.noConfusion h
    | vBool b => exact Bool.noConfusion h
    | vInt n => exact Bool.noConfusion h
    | vStr s => exact Bool.noConfusion h
    | vArr xs => exact Bool.noConfusion h

/-- Witness for C4 amended at a payload that already carries
`flexibleDates`. -/
theorem c4_envelope_after_validation_witness :
    (validateTripSubmissionData tripPayloadFlex).2 =
      applyFlexibleDatesDefault tripPayloadFlex ∧
    (validateTripSubmissionData tripPayloadFlex).2 = tripPayloadFlex :=
  ⟨(c4_envelope_after_validation tripPayloadFlex).1,
   (c4_envelope_after_validation tripPayloadFlex).2 (by decide)⟩

/-- C10. Sanitization invariant: `sanitizeString` trims the string and then
deletes every occurrence of the five dangerous characters, so its output
contains none of them; non-string values pass through unchanged; and every
string persisted in the destination, departureLocation, budget,
travelStyle, specialRequests and interests fields of an assembled trip is
in the image of `sanitizeString`. -/
theorem c10_sanitization :
    (∀ l : List Char, sanitizeChars l =
        (jsTrimChars l).filter (fun c => !(isBannedChar c))) ∧
    (∀ (s : String), ∀ c ∈ sanitizeChars s.data, isBannedChar c = false) ∧
    (∀ v : Value, (∀ s, v ≠ .vStr s) → sanitizeString v = v) ∧
    (∀ data : Value,
      (∀ v ∈ assembledDestinations data, ∃ x, v = sanitizeString x) ∧
      (∀ v, assembledDestination data = some v → ∃ x, v = sanitizeString x) ∧
      (assembledDepartureLocation data = .vNull ∨
        ∃ x, assembledDepartureLocation data = sanitizeString x) ∧
      (assembledBudget data = .vNull ∨
        ∃ x, assembledBudget data = sanitizeString x) ∧
      (∃ x, assembledTravelStyle data = sanitizeString x) ∧
      (∃ x, assembledSpecialRequests data = sanitizeString x) ∧
      (∀ v ∈ assembledInterests data, ∃ x, v = sanitizeString x)) := by
  refine ⟨fun l => rfl, ?_, ?_, ?_⟩
  · intro s c hc
    simpa using (List.mem_filter.mp hc).2
  · intro v h
    cases v with
    | vStr s => exact absurd rfl (h s)
    | vNull => rfl
    | vBool b => rfl
    | vInt n => rfl
    | vArr xs => rfl
    | vObj fs => rfl
  · intro data
    refine ⟨?_, ?_, ?_, ?_, ?_, ?_, ?_⟩
    · intro v hv
      unfold assembledDestinations at hv
      split at hv
      · obtain ⟨x, _, hxv⟩ := List.mem_map.mp (List.mem_filter.mp hv).1
        exact ⟨x, hxv.symm⟩
      · split at hv
        · split at hv
          · exact ⟨_, List.mem_singleton.mp hv⟩
          · exact absurd hv (List.not_mem_nil v)
        · exact absurd hv (List.not_mem_nil v)
    · intro v hv
      unfold assembledDestination at hv
      obtain ⟨x, _, hxv⟩ := Option.map_eq_some'.mp hv
      exact ⟨x, hxv.symm⟩
    · unfold assembledDepartureLocation
      split
      · rename_i v heq
        split
        · right
          obtain ⟨x, _, hxv⟩ := Option.map_eq_some'.mp heq
          exact ⟨x, hxv.symm⟩
        · exact Or.inl rfl
      · exact Or.inl rfl
    · unfold assembledBudget
      split
      · rename_i v heq
        split
        · right
          obtain ⟨x, _, hxv⟩ := Option.map_eq_some'.mp heq
          exact ⟨x, hxv.symm⟩
        · exact Or.inl rfl
      · exact Or.inl rfl
    · unfold assembledTravelStyle
      split
      · rename_i v heq
        split
        · obtain ⟨x, _, hxv⟩ := Option.map_eq_some'.mp heq
          exact ⟨x, hxv.symm⟩
        · exact ⟨.vStr "Comfortable", rfl⟩
      · exact ⟨.vStr "Comfortable", rfl⟩
    · unfold assembledSpecialRequests
      split
      · rename_i v heq
        split
        · obtain ⟨x, _, hxv⟩ := Option.map_eq_some'.mp heq
          exact ⟨x, hxv.symm⟩
        · exact ⟨.vStr "", rfl⟩
      · exact ⟨.vStr "", rfl⟩
    · intro v hv
      unfold assembledInterests at hv
      split at hv
      · obtain ⟨x, _, hxv⟩ := List.mem_map.mp (List.mem_filter.mp hv).1
        exact ⟨x, hxv.symm⟩
      · exact absurd hv (List.not_mem_nil v)

/-- C3, counterexample. A submission with group size 0 is not admitted with
the value clamped to 1: schema validation rejects it with the minimum-bound
error before the clamp is reached; likewise 25 is rejected rather than
clamped to 20. Only in-range sizes such as 7 are admitted. -/
theorem c3_group_size_clamp_counterexample :
    (validateTripSubmissionData (groupSizePayload 0)).1.valid = false ∧
    (validateTripSubmissionData (groupSizePayload 0)).1.errors =
      [⟨"/groupSize", "must be >= 1"⟩] ∧
    (validateTripSubmissionData (groupSizePayload 25)).1.valid = false ∧
    (validateTripSubmissionData (groupSizePayload 25)).1.errors =
      [⟨"/groupSize", "must be <= 20"⟩] ∧
    (validateTripSubmissionData (groupSizePayload 7)).1.valid = true ∧
    assembledGroupSize (groupSizePayload 7) = 7 :=
  ⟨rfl, rfl, rfl, rfl, rfl, rfl⟩

/-- C3, amended. An out-of-range group size is rejected by schema
validation (minimum 1, maximum 20) rather than clamped: 0 draws the
minimum-bound error and 25 the maximum-bound error. A schema-valid group
size passes through unchanged - the post-validation clamp of `index.js`
line 121 is the identity on 1..20 - so 7 is admitted as 7. -/
theorem c3_group_size_amended (g : Int) :
    (g < 1 →
      (validateTripSubmissionData (groupSizePayload g)).1.valid = false ∧
      FieldError.mk "/groupSize" "must be >= 1" ∈
        (validateTripSubmissionData (groupSizePayload g)).1.errors) ∧
    (20 < g →
      (validateTripSubmissionData (groupSizePayload g)).1.valid = false ∧
      FieldError.mk "/groupSize" "must be <= 20" ∈
        (validateTripSubmissionData (groupSizePayload g)).1.errors) ∧
    (1 ≤ g → g ≤ 20 →
      (validateTripSubmissionData (groupSizePayload g)).1.valid = true ∧
      clampGroupSize (.vInt g) = g ∧
      assembledGroupSize (groupSizePayload g) = g) := by
  have hfst := validateTripSubmissionData_fst (groupSizePayload g)
  rw [groupSizePayload_errors g] at hfst
  refine ⟨?_, ?_, ?_⟩
  · intro h
    rw [if_pos h, if_neg (by omega : ¬ g > 20)] at hfst
    simp only [List.append_nil, List.isEmpty_cons, Bool.false_eq_true, if_false] at hfst
    rw [hfst]
    exact ⟨rfl, List.mem_singleton.mpr rfl⟩
  · intro h
    rw [if_neg (by omega : ¬ g < 1), if_pos (by omega : g > 20)] at hfst
    simp only [List.nil_append, List.isEmpty_cons, Bool.false_eq_true, if_false] at hfst
    rw [hfst]
    exact ⟨rfl, List.mem_singleton.mpr rfl⟩
  · intro hlo hhi
    rw [if_neg (by omega : ¬ g < 1), if_neg (by omega : ¬ g > 20)] at hfst
    simp only [List.append_nil, List.isEmpty_nil, if_true] at hfst
    have hsnd : validateDateRange (validateTripSubmission (groupSizePayload g)).2 =
        ⟨true, []⟩ := rfl
    rw [hsnd] at hfst
    have hclamp : clampGroupSize (.vInt g) = g := by
      have hg : ¬ g = 0 := by omega
      simp only [clampGroupSize, jsParseInt, hg, if_false, beq_iff_eq]
      rw [max_def, min_def]
      split_ifs <;> omega
    refine ⟨by rw [hfst], hclamp, ?_⟩
    show clampGroupSize (.vInt g) = g
    exact hclamp

/-- Witness for C3 amended at group sizes 0, 25 and 7. -/
theorem c3_group_size_amended_witness :
    ((validateTripSubmissionData (groupSizePayload 0)).1.valid = false ∧
      FieldError.mk "/groupSize" "must be >= 1" ∈
        (validateTripSubmissionData (groupSizePayload 0)).1.errors) ∧
    ((validateTripSubmissionData (groupSizePayload 25)).1.valid = false ∧
      FieldError.mk "/groupSize" "must be <= 20" ∈
        (validateTripSubmissionData (groupSizePayload 25)).1.errors) ∧
    ((validateTripSubmissionData (groupSizePayload 7)).1.valid = true ∧
      clampGroupSize (.vInt 7) = 7 ∧
      assembledGroupSize (groupSizePayload 7) = 7) :=
  ⟨(c3_group_size_amended 0).1 (by decide),
   (c3_group_size_amended 25).2.1 (by decide),
   (c3_group_size_amended 7).2.2 (by decide) (by decide)⟩

/-- C7. Top-level date-range rule: with both date fields present, truthy
and parsing to instants, `validateDateRange` rejects with the cross-field
`endDate` error exactly when the end instant is not strictly after the
start instant, and passes otherwise; and the date step of `submitTrip`
likewise fails exactly when the parsed end is not strictly after the
parsed start. -/
theorem c7_date_range_rule :
    (∀ (data sv ev : Value) (ts te : Int),
      getProp data "startDate" = some sv → getProp data "endDate" = some ev →
      jsTruthy sv = true → jsTruthy ev = true →
      jsNewDate sv = some ts → jsNewDate ev = some te →
      (te ≤ ts → validateDateRange data =
          ⟨false, [⟨"endDate", "End date must be after start date"⟩]⟩) ∧
      (ts < te → validateDateRange data = ⟨true, []⟩)) ∧
    (∀ (sv ev : Option Value) (ts te : Int),
      parseSubmittedDate sv = some ts → parseSubmittedDate ev = some te →
      (submitTripDates sv ev = none ↔ te ≤ ts)) := by
  constructor
  · intro data sv ev ts te hs he hst het hps hpe
    unfold validateDateRange
    rw [hs, he]
    simp only [Option.map_some', Option.getD_some, hst, het, Bool.and_self, if_true,
      Option.some_bind, hps, hpe]
    constructor
    · intro h
      rw [if_pos h]
    · intro h
      rw [if_neg (by omega : ¬ te ≤ ts)]
  · intro sv ev ts te hps hpe
    unfold submitTripDates
    rw [hps, hpe]
    show (if te ≤ ts then none else some (ts, te)) = none ↔ te ≤ ts
    constructor
    · intro h
      by_contra hc
      rw [if_neg hc] at h
      exact Option.noConfusion h
    · intro h
      rw [if_pos h]

/-- Witness for C7: equal dates are rejected, strictly ordered dates pass,
in both embedded checks. -/
theorem c7_date_range_rule_witness :
    (validateDateRange equalDatesPayload =
      ⟨false, [⟨"endDate", "End date must be after start date"⟩]⟩) ∧
    validateDateRange (groupSizePayload 2) = ⟨true, []⟩ ∧
    (submitTripDates (some (.vStr "2024-06-15")) (some (.vStr "2024-06-15")) =
        none ↔ (1718452800000 : Int) ≤ 1718452800000) :=
  ⟨(c7_date_range_rule.1 equalDatesPayload (.vStr "2024-06-15") (.vStr "2024-06-15")
      1718409600000 1718409600000 rfl rfl (by decide) (by decide) (by decide)
      (by decide)).1 (by decide),
   (c7_date_range_rule.1 (groupSizePayload 2) (.vStr "2024-06-15") (.vStr "2024-06-22")
      1718409600000 1719014400000 rfl rfl (by decide) (by decide) (by decide)
      (by decide)).2 (by decide),
   c7_date_range_rule.2 (some (.vStr "2024-06-15")) (some (.vStr "2024-06-15"))
      1718452800000 1718452800000 (by decide) (by decide)⟩

/-- Helper: the error fold of `validateDestinationDates` over an
enumerated destination list equals the image of the filtered index list,
for every starting index. -/
theorem destErrors_enumFrom (dests : List Value) : ∀ n : Nat,
    (dests.enumFrom n).flatMap
        (fun p => if destDatesViolation p.2 then [mkDestDateError p.1 p.2] else []) =
      ((List.range dests.length).filter
          (fun i => destDatesViolation (dests.getD i .vNull))).map
        (fun i => mkDestDateError (n + i) (dests.getD i .vNull)) := by
  induction dests with
  | nil => intro n; rfl
  | cons x xs ih =>
    intro n
    rw [List.enumFrom_cons, List.flatMap_cons, ih (n + 1)]
    rw [List.length_cons, List.range_succ_eq_map, List.filter_cons]
    simp only [List.getD_cons_zero]
    rw [List.filter_map]
    have hcomp : ((fun i => destDatesViolation ((x :: xs).getD i .vNull)) ∘ Nat.succ) =
        (fun i => destDatesViolation (xs.getD i .vNull)) := by
      funext i
      simp [Function.comp, List.getD_cons_succ]
    rw [hcomp]
    have htail : ∀ l : List Nat,
        ((l.map Nat.succ).map
          (fun i => mkDestDateError (n + i) ((x :: xs).getD i .vNull))) =
        l.map (fun i => mkDestDateError (n + 1 + i) (xs.getD i .vNull)) := by
      intro l
      rw [List.map_map]
      apply List.map_congr_left
      intro i _
      simp only [Function.comp, List.getD_cons_succ]
      rw [show n + (i + 1) = n + 1 + i by omega]
    by_cases hx : destDatesViolation x = true
    · rw [if_pos hx, if_pos hx, List.map_cons, htail]
      simp [Nat.add_zero]
    · rw [if_neg hx, if_neg hx, htail]
      simp

/-- C8. Nested date-range rule: for a recommendation whose `destinations`
field is an array, the evaluator reports exactly one error per violating
destination - every violating position, in order, with the error built
from that position and destination (its index in the field path, its city
name or one-based position in the message) - and the result is valid
exactly when no destination violates the rule. -/
theorem c8_nested_date_rule (r : Value) (dests : List Value)
    (h : getProp r "destinations" = some (.vArr dests)) :
    (validateDestinationDates r).errors =
      (violatingIndices dests).map (fun i => mkDestDateError i (dests.getD i .vNull)) ∧
    ((validateDestinationDates r).valid = true ↔ violatingIndices dests = []) := by
  have hval : validateDestinationDates r =
      (if (dests.enum.flatMap (fun p =>
          if destDatesViolation p.2 then [mkDestDateError p.1 p.2] else [])).isEmpty
        then ⟨true, []⟩
        else ⟨false, dests.enum.flatMap (fun p =>
          if destDatesViolation p.2 then [mkDestDateError p.1 p.2] else [])⟩) := by
    unfold validateDestinationDates
    rw [h]
  have hE : dests.enum.flatMap (fun p =>
      if destDatesViolation p.2 then [mkDestDateError p.1 p.2] else []) =
      (violatingIndices dests).map (fun i => mkDestDateError i (dests.getD i .vNull)) := by
    rw [show dests.enum = dests.enumFrom 0 from rfl, destErrors_enumFrom dests 0]
    unfold violatingIndices
    simp [Nat.zero_add]
  rw [hval, hE]
  constructor
  · split
    · rename_i hemp
      have h2 : (violatingIndices dests).map
          (fun i => mkDestDateError i (dests.getD i .vNull)) = [] := by
        simpa using hemp
      rw [h2]
    · rfl
  · split
    · rename_i hemp
      have h2 : (violatingIndices dests).map
          (fun i => mkDestDateError i (dests.getD i .vNull)) = [] := by
        simpa using hemp
      have h3 : violatingIndices dests = [] := by
        simpa using h2
      simp [h3]
    · rename_i hemp
      have h3 : ¬ violatingIndices dests = [] := by
        intro hh
        exact hemp (by simp [hh])
      simp [h3]

/-- Witness for C8 at a three-destination recommendation: the first and
third destinations violate the rule and both are reported, tagged with
their indices, the city name "Paris" for the first and the position 3 for
the unnamed third; the in-order second destination produces no error. -/
theorem c8_nested_date_rule_witness :
    (validateDestinationDates recPayload).errors =
      [⟨"destinations[0].departureDate",
        "Destination Paris: Departure date must be after arrival date"⟩,
       ⟨"destinations[2].departureDate",
        "Destination 3: Departure date must be after arrival date"⟩] ∧
    (validateDestinationDates recPayload).valid = false :=
  ⟨((c8_nested_date_rule recPayload recPayloadDests rfl).1).trans (by decide),
   rfl⟩

/-- Helper: a string with a nonempty first part is nonempty. -/
theorem prepend_ne_empty (a s : String) (ha : a.length ≠ 0) : a ++ s ≠ "" := by
  intro h
  have h2 := congrArg String.length h
  rw [String.length_append] at h2
  have h3 : ("" : String).length = 0 := rfl
  omega

/-- Helper: an item path under `/destinations` is not the array path
itself. -/
theorem destinations_item_path_ne (s : String) :
    "/destinations/" ++ s ≠ "/destinations" := by
  intro h
  have h2 := congrArg String.length h
  rw [String.length_append] at h2
  have h3 : ("/destinations/" : String).length = 14 := rfl
  have h4 : ("/destinations" : String).length = 13 := rfl
  omega

/-- Helper: an item path under `/interests` is not the `/destinations`
path. -/
theorem interests_item_path_ne (s : String) :
    "/interests/" ++ s ≠ "/destinations" := by
  intro h
  have h2 := congrArg String.data h
  rw [String.data_append] at h2
  have h3 : ("/interests/" : String).data = '/' :: 'i' :: "nterests/".data := rfl
  have h4 : ("/destinations" : String).data = '/' :: 'd' :: "estinations".data := rfl
  rw [h3, h4] at h2
  simp only [List.cons_append, List.cons.injEq] at h2
  exact absurd h2.2.1 (by decide)

/-- Helper: the field of a mapped error with a nonempty instance path is
that path. -/
theorem mapAjvError_field_of_ne {e : AjvError} (h : e.instancePath ≠ "") :
    (mapAjvError e).field = e.instancePath := by
  unfold mapAjvError
  simp [h]

/-- Helper: errors of a string-property check carry the property path. -/
theorem instancePath_of_checkStringProp {path : String} {a b : Nat} {v : Value}
    {e : AjvError} (h : e ∈ checkStringProp path a b v) : e.instancePath = path := by
  unfold checkStringProp at h
  cases v with
  | vStr s =>
      rcases List.mem_append.mp h with h | h <;> split_ifs at h <;> simp_all
  | vNull => simp_all
  | vBool x => simp_all
  | vInt x => simp_all
  | vArr x => simp_all
  | vObj x => simp_all

/-- Helper: errors of an integer-property check carry the property path. -/
theorem instancePath_of_checkIntProp {path : String} {lo hi : Int} {v : Value}
    {e : AjvError} (h : e ∈ checkIntProp path lo hi v) : e.instancePath = path := by
  unfold checkIntProp at h
  cases v with
  | vInt n =>
      rcases List.mem_append.mp h with h | h <;> split_ifs at h <;> simp_all
  | vNull => simp_all
  | vBool x => simp_all
  | vStr x => simp_all
  | vArr x => simp_all
  | vObj x => simp_all

/-- Helper: errors of a date-pattern check carry the property path. -/
theorem instancePath_of_checkDatePatternProp {path : String} {v : Value}
    {e : AjvError} (h : e ∈ checkDatePatternProp path v) : e.instancePath = path := by
  unfold checkDatePatternProp at h
  cases v with
  | vStr s =>
      have h2 : e ∈ (if matchesDatePattern s = true then ([] : List AjvError)
          else [⟨path, none, "must match pattern \"" ++ datePatternString ++ "\""⟩]) := h
      split_ifs at h2 <;> simp_all
  | vNull => simp_all
  | vBool x => simp_all
  | vInt x => simp_all
  | vArr x => simp_all
  | vObj x => simp_all

/-- Helper: errors of a boolean-property check carry the property path. -/
theorem instancePath_of_checkBooleanProp {path : String} {v : Value}
    {e : AjvError} (h : e ∈ checkBooleanProp path v) : e.instancePath = path := by
  unfold checkBooleanProp at h
  cases v <;> simp_all

/-- Helper: errors of an enumeration check carry the property path. -/
theorem instancePath_of_checkEnumProp {path : String} {vocab : List String}
    {v : Value} {e : AjvError} (h : e ∈ checkEnumProp path vocab v) :
    e.instancePath = path := by
  unfold checkEnumProp at h
  cases v with
  | vStr s =>
      have h2 : e ∈ (if vocab.contains s = true then ([] : List AjvError)
          else [⟨path, none, "must be equal to one of the allowed values"⟩]) := h
      split_ifs at h2 <;> simp_all
  | vNull => simp_all
  | vBool x => simp_all
  | vInt x => simp_all
  | vArr x => simp_all
  | vObj x => simp_all

/-- Helper: errors of the destinations check on an array within the
cardinality bounds all sit under item paths. -/
theorem checkDestinationsProp_paths {xs : List Value} (h1 : 1 ≤ xs.length)
    (h5 : xs.length ≤ 5) {e : AjvError} (h : e ∈ checkDestinationsProp (.vArr xs)) :
    ∃ i : Nat, e.instancePath = "/destinations/" ++ toString i := by
  unfold checkDestinationsProp at h
  have h2 : e ∈
      (if xs.length < 1 then
        [⟨"/destinations", none, "must NOT have fewer than 1 items"⟩] else []) ++
      (if xs.length > 5 then
        [⟨"/destinations", none, "must NOT have more than 5 items"⟩] else []) ++
      xs.enum.flatMap
        (fun p => checkStringProp ("/destinations/" ++ toString p.1) 1 100 p.2) := h
  rw [if_neg (by omega : ¬ xs.length < 1), if_neg (by omega : ¬ xs.length > 5)] at h2
  simp only [List.nil_append] at h2
  obtain ⟨p, _, hp⟩ := List.mem_flatMap.mp h2
  exact ⟨p.1, instancePath_of_checkStringProp hp⟩

/-- Helper: errors of the interests check sit at the array path or under
item paths. -/
theorem checkInterestsProp_paths {v : Value} {e : AjvError}
    (h : e ∈ checkInterestsProp v) :
    e.instancePath = "/interests" ∨
      ∃ i : Nat, e.instancePath = "/interests/" ++ toString i := by
  unfold checkInterestsProp at h
  cases v with
  | vArr xs =>
      rcases List.mem_append.mp h with h | h
      · split_ifs at h <;> simp_all
      · obtain ⟨p, _, hp⟩ := List.mem_flatMap.mp h
        exact Or.inr ⟨p.1, instancePath_of_checkStringProp hp⟩
  | vNull => exact Or.inl (by simp_all)
  | vBool x => exact Or.inl (by simp_all)
  | vInt x => exact Or.inl (by simp_all)
  | vStr x => exact Or.inl (by simp_all)
  | vObj x => exact Or.inl (by simp_all)

/-- Helper: required-property errors sit at the document root and name one
of the five required trip fields. -/
theorem mem_requiredErrors {fs : List (String × Value)} {e : AjvError}
    (h : e ∈ requiredErrors fs) :
    e.instancePath = "" ∧ ∃ k ∈ tripRequiredList, e.missingProperty = some k := by
  unfold requiredErrors at h
  obtain ⟨k, hk, he⟩ := List.mem_flatMap.mp h
  split_ifs at he
  · exact absurd he (List.not_mem_nil e)
  · rw [List.mem_singleton] at he
    subst he
    exact ⟨rfl, k, hk, rfl⟩

/-- Helper: an optional-property check fires only on a present property. -/
theorem mem_checkOpt {fs : List (String × Value)} {k : String}
    {f : Value → List AjvError} {e : AjvError} (h : e ∈ checkOpt fs k f) :
    ∃ v, getField fs k = some v ∧ e ∈ f v := by
  unfold checkOpt at h
  split at h
  · rename_i v heq
    exact ⟨v, heq, h⟩
  · exact absurd h (List.not_mem_nil e)

/-- Helper: every error of `validateDateRange` is an `endDate` error. -/
theorem validateDateRange_errors_field {d : Value} {e : FieldError}
    (h : e ∈ (validateDateRange d).errors) : e.field = "endDate" := by
  unfold validateDateRange at h
  split_ifs at h
  · split at h
    · split_ifs at h <;> simp_all
    · exact absurd h (List.not_mem_nil e)
  · exact absurd h (List.not_mem_nil e)

/-- Helper: a schema error makes the full validation invalid and surfaces
its mapped form. -/
theorem validateTripSubmissionData_invalid {data : Value} {e : AjvError}
    (he : e ∈ (validateTripSubmission data).1) :
    (validateTripSubmissionData data).1.valid = false ∧
    mapAjvError e ∈ (validateTripSubmissionData data).1.errors := by
  have hfst := validateTripSubmissionData_fst data
  rw [if_neg (by
    simpa [List.isEmpty_iff] using List.ne_nil_of_mem he)] at hfst
  rw [hfst]
  exact ⟨rfl, List.mem_map_of_mem _ he⟩

/-- Helper: every reported error is either a mapped schema error or a
cross-field date-range error. -/
theorem validateTripSubmissionData_errors_cases {data : Value} {e : FieldError}
    (he : e ∈ (validateTripSubmissionData data).1.errors) :
    (∃ a ∈ (validateTripSubmission data).1, e = mapAjvError a) ∨
    e ∈ (validateDateRange (validateTripSubmission data).2).errors := by
  rw [validateTripSubmissionData_fst] at he
  by_cases hemp : (validateTripSubmission data).1.isEmpty = true
  · rw [if_pos hemp] at he
    exact Or.inr he
  · rw [if_neg hemp] at he
    obtain ⟨a, ha, heq⟩ := List.mem_map.mp he
    exact Or.inl ⟨a, ha, heq.symm⟩

/-- Helper: with `destinations` present as an in-bounds array, no schema
error of the trip submission maps to the field `/destinations`. -/
theorem trip_errors_field_analysis {fs : List (String × Value)} {xs : List Value}
    {e : AjvError} (hdest : getField fs "destinations" = some (.vArr xs))
    (h1 : 1 ≤ xs.length) (h5 : xs.length ≤ 5)
    (h : e ∈ (validateTripSubmission (.vObj fs)).1) :
    (mapAjvError e).field ≠ "/destinations" := by
  have h2 : e ∈
      requiredErrors fs ++
      checkOpt fs "destinations" checkDestinationsProp ++
      checkOpt fs "startDate" (checkDatePatternProp "/startDate") ++
      checkOpt fs "endDate" (checkDatePatternProp "/endDate") ++
      checkOpt fs "travelStyle" (checkEnumProp "/travelStyle" travelStyleVocabulary) ++
      checkOpt fs "groupSize" (checkIntProp "/groupSize" 1 20) ++
      checkOpt fs "departureLocation" (checkStringProp "/departureLocation" 1 100) ++
      checkOpt fs "flexibleDates" (checkBooleanProp "/flexibleDates") ++
      checkOpt fs "tripDuration" (checkIntProp "/tripDuration" 1 90) ++
      checkOpt fs "budget" (checkEnumProp "/budget" budgetVocabulary) ++
      checkOpt fs "specialRequests" (checkStringProp "/specialRequests" 0 1000) ++
      checkOpt fs "interests" checkInterestsProp ++
      checkOpt fs "flightClass" (checkEnumProp "/flightClass" flightClassVocabulary) ++
      checkOpt fs "destination" (checkStringProp "/destination" 0 100) ++
      checkOpt fs "paymentMethod" (checkStringProp "/paymentMethod" 0 50) := h
  clear h
  simp only [List.mem_append] at h2
  rcases h2 with ((((((((((((((h | h) | h) | h) | h) | h) | h) | h) | h) | h) | h)
    | h) | h) | h) | h)
  · obtain ⟨hip, k, hk, hmp⟩ := mem_requiredErrors h
    have hf : (mapAjvError e).field = k := by
      simp [mapAjvError, hip, hmp]
    rw [hf]
    simp only [tripRequiredList, List.mem_cons, List.not_mem_nil, or_false] at hk
    rcases hk with rfl | rfl | rfl | rfl | rfl <;> decide
  · obtain ⟨v, heq, he⟩ := mem_checkOpt h
    rw [hdest] at heq
    obtain rfl : Value.vArr xs = v := Option.some.inj heq
    obtain ⟨i, hp⟩ := checkDestinationsProp_paths h1 h5 he
    rw [mapAjvError_field_of_ne (by rw [hp]; exact prepend_ne_empty _ _ (by decide)), hp]
    exact destinations_item_path_ne _
  · obtain ⟨v, _, he⟩ := mem_checkOpt h
    have hp := instancePath_of_checkDatePatternProp he
    rw [mapAjvError_field_of_ne (by rw [hp]; decide), hp]
    decide
  · obtain ⟨v, _, he⟩ := mem_checkOpt h
    have hp := instancePath_of_checkDatePatternProp he
    rw [mapAjvError_field_of_ne (by rw [hp]; decide), hp]
    decide
  · obtain ⟨v, _, he⟩ := mem_checkOpt h
    have hp := instancePath_of_checkEnumProp he
    rw [mapAjvError_field_of_ne (by rw [hp]; decide), hp]
    decide
  · obtain ⟨v, _, he⟩ := mem_checkOpt h
    have hp := instancePath_of_checkIntProp he
    rw [mapAjvError_field_of_ne (by rw [hp]; decide), hp]
    decide
  · obtain ⟨v, _, he⟩ := mem_checkOpt h
    have hp := instancePath_of_checkStringProp he
    rw [mapAjvError_field_of_ne (by rw [hp]; decide), hp]
    decide
  · obtain ⟨v, _, he⟩ := mem_checkOpt h
    have hp := instancePath_of_checkBooleanProp he
    rw [mapAjvError_field_of_ne (by rw [hp]; decide), hp]
    decide
  · obtain ⟨v, _, he⟩ := mem_checkOpt h
    have hp := instancePath_of_checkIntProp he
    rw [mapAjvError_field_of_ne (by rw [hp]; decide), hp]
    decide
  · obtain ⟨v, _, he⟩ := mem_checkOpt h
    have hp := instancePath_of_checkEnumProp he
    rw [mapAjvError_field_of_ne (by rw [hp]; decide), hp]
    decide
  · obtain ⟨v, _, he⟩ := mem_checkOpt h
    have hp := instancePath_of_checkStringProp he
    rw [mapAjvError_field_of_ne (by rw [hp]; decide), hp]
    decide
  · obtain ⟨v, _, he⟩ := mem_checkOpt h
    rcases checkInterestsProp_paths he with hp | ⟨i, hp⟩
    · rw [mapAjvError_field_of_ne (by rw [hp]; decide), hp]
      decide
    · rw [mapAjvError_field_of_ne (by rw [hp]; exact prepend_ne_empty _ _ (by decide)),
        hp]
      exact interests_item_path_ne _
  · obtain ⟨v, _, he⟩ := mem_checkOpt h
    have hp := instancePath_of_checkEnumProp he
    rw [mapAjvError_field_of_ne (by rw [hp]; decide), hp]
    decide
  · obtain ⟨v, _, he⟩ := mem_checkOpt h
    have hp := instancePath_of_checkStringProp he
    rw [mapAjvError_field_of_ne (by rw [hp]; decide), hp]
    decide
  · obtain ⟨v, _, he⟩ := mem_checkOpt h
    have hp := instancePath_of_checkStringProp he
    rw [mapAjvError_field_of_ne (by rw [hp]; decide), hp]
    decide

/-- C9. Destination cardinality bounds: a trip submission whose
`destinations` field is an empty array is rejected with the structural
minimum-cardinality error; one with more than 5 destinations is rejected
with the maximum-cardinality error; and with 1 to 5 destinations the
cardinality check passes - no reported error sits at the `/destinations`
field. -/
theorem c9_destination_cardinality (fs : List (String × Value)) (xs : List Value)
    (hdest : getField fs "destinations" = some (.vArr xs)) :
    (xs.length = 0 →
      (validateTripSubmissionData (.vObj fs)).1.valid = false ∧
      FieldError.mk "/destinations" "must NOT have fewer than 1 items" ∈
        (validateTripSubmissionData (.vObj fs)).1.errors) ∧
    (5 < xs.length →
      (validateTripSubmissionData (.vObj fs)).1.valid = false ∧
      FieldError.mk "/destinations" "must NOT have more than 5 items" ∈
        (validateTripSubmissionData (.vObj fs)).1.errors) ∧
    (1 ≤ xs.length → xs.length ≤ 5 →
      ∀ e ∈ (validateTripSubmissionData (.vObj fs)).1.errors,
        e.field ≠ "/destinations") := by
  have hco : checkOpt fs "destinations" checkDestinationsProp =
      checkDestinationsProp (.vArr xs) := by
    unfold checkOpt
    rw [hdest]
  refine ⟨?_, ?_, ?_⟩
  · intro hlen
    have hmem : (⟨"/destinations", none, "must NOT have fewer than 1 items"⟩ :
        AjvError) ∈ checkDestinationsProp (.vArr xs) := by
      show _ ∈
        (if xs.length < 1 then
          [⟨"/destinations", none, "must NOT have fewer than 1 items"⟩] else []) ++
        (if xs.length > 5 then
          [⟨"/destinations", none, "must NOT have more than 5 items"⟩] else []) ++
        xs.enum.flatMap
          (fun p => checkStringProp ("/destinations/" ++ toString p.1) 1 100 p.2)
      apply List.mem_append_left
      apply List.mem_append_left
      rw [if_pos (by omega : xs.length < 1)]
      exact List.mem_singleton.mpr rfl
    have hmemE : (⟨"/destinations", none, "must NOT have fewer than 1 items"⟩ :
        AjvError) ∈ (validateTripSubmission (.vObj fs)).1 := by
      show _ ∈ requiredErrors fs ++
        checkOpt fs "destinations" checkDestinationsProp ++
        checkOpt fs "startDate" (checkDatePatternProp "/startDate") ++
        checkOpt fs "endDate" (checkDatePatternProp "/endDate") ++
        checkOpt fs "travelStyle" (checkEnumProp "/travelStyle" travelStyleVocabulary) ++
        checkOpt fs "groupSize" (checkIntProp "/groupSize" 1 20) ++
        checkOpt fs "departureLocation" (checkStringProp "/departureLocation" 1 100) ++
        checkOpt fs "flexibleDates" (checkBooleanProp "/flexibleDates") ++
        checkOpt fs "tripDuration" (checkIntProp "/tripDuration" 1 90) ++
        checkOpt fs "budget" (checkEnumProp "/budget" budgetVocabulary) ++
        checkOpt fs "specialRequests" (checkStringProp "/specialRequests" 0 1000) ++
        checkOpt fs "interests" checkInterestsProp ++
        checkOpt fs "flightClass" (checkEnumProp "/flightClass" flightClassVocabulary) ++
        checkOpt fs "destination" (checkStringProp "/destination" 0 100) ++
        checkOpt fs "paymentMethod" (checkStringProp "/paymentMethod" 0 50)
      iterate 13 apply List.mem_append_left
      exact List.mem_append_right _ (hco ▸ hmem)
    exact validateTripSubmissionData_invalid hmemE
  · intro hlen
    have hmem : (⟨"/destinations", none, "must NOT have more than 5 items"⟩ :
        AjvError) ∈ checkDestinationsProp (.vArr xs) := by
      show _ ∈
        (if xs.length < 1 then
          [⟨"/destinations", none, "must NOT have fewer than 1 items"⟩] else []) ++
        (if xs.length > 5 then
          [⟨"/destinations", none, "must NOT have more than 5 items"⟩] else []) ++
        xs.enum.flatMap
          (fun p => checkStringProp ("/destinations/" ++ toString p.1) 1 100 p.2)
      apply List.mem_append_left
      apply List.mem_append_right
      rw [if_pos (by omega : xs.length > 5)]
      exact List.mem_singleton.mpr rfl
    have hmemE : (⟨"/destinations", none, "must NOT have more than 5 items"⟩ :
        AjvError) ∈ (validateTripSubmission (.vObj fs)).1 := by
      show _ ∈ requiredErrors fs ++
        checkOpt fs "destinations" checkDestinationsProp ++
        checkOpt fs "startDate" (checkDatePatternProp "/startDate") ++
        checkOpt fs "endDate" (checkDatePatternProp "/endDate") ++
        checkOpt fs "travelStyle" (checkEnumProp "/travelStyle" travelStyleVocabulary) ++
        checkOpt fs "groupSize" (checkIntProp "/groupSize" 1 20) ++
        checkOpt fs "departureLocation" (checkStringProp "/departureLocation" 1 100) ++
        checkOpt fs "flexibleDates" (checkBooleanProp "/flexibleDates") ++
        checkOpt fs "tripDuration" (checkIntProp "/tripDuration" 1 90) ++
        checkOpt fs "budget" (checkEnumProp "/budget" budgetVocabulary) ++
        checkOpt fs "specialRequests" (checkStringProp "/specialRequests" 0 1000) ++
        checkOpt fs "interests" checkInterestsProp ++
        checkOpt fs "flightClass" (checkEnumProp "/flightClass" flightClassVocabulary) ++
        checkOpt fs "destination" (checkStringProp "/destination" 0 100) ++
        checkOpt fs "paymentMethod" (checkStringProp "/paymentMethod" 0 50)
      iterate 13 apply List.mem_append_left
      exact List.mem_append_right _ (hco ▸ hmem)
    exact validateTripSubmissionData_invalid hmemE
  · intro hlo hhi e he
    rcases validateTripSubmissionData_errors_cases he with ⟨a, ha, rfl⟩ | hdr
    · exact trip_errors_field_analysis hdest hlo hhi ha
    · rw [validateDateRange_errors_field hdr]
      decide

/-- Witness for C9 at an empty and a six-element destinations array. -/
theorem c9_destination_cardinality_witness :
    ((validateTripSubmissionData (.vObj emptyDestinationsPayload)).1.valid = false ∧
      FieldError.mk "/destinations" "must NOT have fewer than 1 items" ∈
        (validateTripSubmissionData (.vObj emptyDestinationsPayload)).1.errors) ∧
    ((validateTripSubmissionData (.vObj sixDestinationsPayload)).1.valid = false ∧
      FieldError.mk "/destinations" "must NOT have more than 5 items" ∈
        (validateTripSubmissionData (.vObj sixDestinationsPayload)).1.errors) :=
  ⟨(c9_destination_cardinality emptyDestinationsPayload [] rfl).1 rfl,
   (c9_destination_cardinality sixDestinationsPayload
      [.vStr "Paris", .vStr "Lyon", .vStr "Nice", .vStr "Marseille",
       .vStr "Bordeaux", .vStr "Toulouse"] rfl).2.1 (by decide)⟩

/-- Witness for C10: a non-string passes through unchanged, and concrete
sanitizations evaluate as described. -/
theorem c10_sanitization_witness :
    sanitizeString (.vInt 7) = .vInt 7 ∧
    sanitizeString (.vStr "  <b>hi</b> & goodbye ") = .vStr "bhi/b  goodbye" ∧
    isBannedChar '<' = true :=
  ⟨c10_sanitization.2.2.1 (.vInt 7) (fun _ h => Value.noConfusion h), rfl, rfl⟩

end Wander
